import Mathlib

/-!
Verification of the YouTube-Summarizer backend (`Backend/backendd.py`).

The file shallowly embeds the four components of the backend:

* `get_video_id_from_url` — the URL identifier extractor, including a model of
  CPython `urllib.parse.urlsplit` query extraction and `parse_qs`;
* `get_transcript` — the transcript fetcher with its en-IN / hi / en fallback
  chain, over an abstract transcript service;
* `summarize_with_gemini` — the prompt construction and model call, over an
  abstract generative model;
* `handle_summarize_request` — the `POST /summarize` handler, mapping the
  exception flow of the Python code to concrete HTTP responses.

External services (the transcript API and the generative model) are modelled
as records of functions returning `Except PyExn`, where `PyExn` stands for an
arbitrary Python exception payload.  All Python string operations used by the
code (`str.split`, `in`, `urlsplit`, `parse_qs`, `unquote`) are implemented
over `List Char` / byte lists, following the CPython 3.11 sources.
-/

/-- Payload of an arbitrary Python exception raised by an external library.
Only its presence matters; the backend never inspects it. -/
structure PyExn where
  info : String
deriving DecidableEq, Repr

/-- Payload of a Python `ValueError` raised by the backend itself. -/
structure PyValueError where
  msg : String
deriving DecidableEq, Repr

deriving instance DecidableEq for Except

/-! ### Python string primitives

`pySplit` is CPython `str.split(sep)` for a non-empty separator: split at every
non-overlapping occurrence of `sep`, scanning left to right, keeping empty
chunks.  `splitOnceChar` is `str.split(c, 1)`.  `pyContains` is the Python
`in` operator on strings. -/

/-- `startsWithList pat l` is true when `pat` is an initial segment of `l`. -/
def startsWithList [DecidableEq α] : List α → List α → Bool
  | [], _ => true
  | _ :: _, [] => false
  | p :: ps, x :: xs => if p = x then startsWithList ps xs else false

/-- First occurrence of the non-empty separator `s0 :: stl` in a list:
returns the part strictly before it and the part strictly after it. -/
def splitFirstNE [DecidableEq α] (s0 : α) (stl : List α) : List α → Option (List α × List α)
  | [] => none
  | a :: rest =>
    if a = s0 ∧ startsWithList stl rest = true then
      some ([], rest.drop stl.length)
    else
      match splitFirstNE s0 stl rest with
      | some (pre, post) => some (a :: pre, post)
      | none => none

theorem splitFirstNE_shrinks [DecidableEq α] (s0 : α) (stl : List α) :
    ∀ (l pre post : List α), splitFirstNE s0 stl l = some (pre, post) →
      post.length < l.length := by
  intro l
  induction l with
  | nil => intro pre post h; simp [splitFirstNE] at h
  | cons a rest ih =>
    intro pre post h
    simp only [splitFirstNE] at h
    split at h
    · simp only [Option.some.injEq, Prod.mk.injEq] at h
      have hpost : post = rest.drop stl.length := h.2.symm
      subst hpost
      have : (rest.drop stl.length).length ≤ rest.length := by
        simp [List.length_drop]
      simpa [List.length_cons] using Nat.lt_succ_of_le this
    · cases hrec : splitFirstNE s0 stl rest with
      | none => rw [hrec] at h; simp at h
      | some p =>
        obtain ⟨p1, p2⟩ := p
        rw [hrec] at h
        simp only [Option.some.injEq, Prod.mk.injEq] at h
        have hlt := ih p1 p2 hrec
        rw [h.2.symm]
        simpa [List.length_cons] using Nat.lt_succ_of_lt hlt

/-- Fuelled splitting loop.  Each found occurrence strictly shortens the
remaining list (`splitFirstNE_shrinks`), so with the initial list's length as
fuel the fuel can only run out on the empty remainder, where the result `[l]`
coincides with the unfuelled loop; the fuel only makes the recursion
structural so that proofs can evaluate it. -/
def pySplitFuel [DecidableEq α] (s0 : α) (stl : List α) : Nat → List α → List (List α)
  | 0, l => [l]
  | fuel + 1, l =>
    match splitFirstNE s0 stl l with
    | none => [l]
    | some (pre, post) => pre :: pySplitFuel s0 stl fuel post

/-- CPython `str.split(sep)` for a non-empty separator `s0 :: stl`. -/
def pySplitNE [DecidableEq α] (s0 : α) (stl : List α) (l : List α) : List (List α) :=
  pySplitFuel s0 stl l.length l

/-- CPython `str.split(sep)` on character lists.  The backend only ever calls
it with the non-empty separators `"&"`, `"youtu.be/"` and `"?"`; an empty
separator (which raises in Python) is mapped to the identity split. -/
def pySplit [DecidableEq α] (sep l : List α) : List (List α) :=
  match sep with
  | [] => [l]
  | s0 :: stl => pySplitNE s0 stl l

/-- CPython `str.split(c, 1)`: split at the first occurrence of `c` only,
returning `none` when `c` does not occur. -/
def splitOnceChar (c : Char) : List Char → Option (List Char × List Char)
  | [] => none
  | a :: rest =>
    if a = c then some ([], rest)
    else
      match splitOnceChar c rest with
      | some (pre, post) => some (a :: pre, post)
      | none => none

/-- The Python `in` operator on strings: `pyContains pat l` is true when `pat`
occurs as a contiguous sublist of `l`. -/
def pyContains [DecidableEq α] (pat : List α) : List α → Bool
  | [] => startsWithList pat []
  | a :: rest => if startsWithList pat (a :: rest) then true else pyContains pat rest

theorem pySplitFuel_ne_nil [DecidableEq α] (s0 : α) (stl : List α) (fuel : Nat)
    (l : List α) : pySplitFuel s0 stl fuel l ≠ [] := by
  cases fuel with
  | zero => simp [pySplitFuel]
  | succ n =>
    rw [pySplitFuel]
    split <;> simp

theorem pySplitNE_ne_nil [DecidableEq α] (s0 : α) (stl l : List α) :
    pySplitNE s0 stl l ≠ [] := pySplitFuel_ne_nil s0 stl l.length l

theorem pySplit_ne_nil [DecidableEq α] (sep l : List α) : pySplit sep l ≠ [] := by
  cases sep with
  | nil => simp [pySplit]
  | cons s0 stl => simpa [pySplit] using pySplitNE_ne_nil s0 stl l

/-! ### CPython `urllib.parse.unquote`

`unquote` replaces each valid `%XX` escape by the byte it denotes and decodes
the resulting byte string as UTF-8 with `errors='replace'`.  We model it as:
encode the characters to UTF-8 bytes, replace the escapes at the byte level
exactly as `urllib.parse._unquote_impl` does, then decode back to characters
replacing each maximal invalid subpart by U+FFFD (CPython's `'replace'`
policy).  For inputs free of unpaired surrogates this agrees with CPython,
which decodes the text between `%`-escapes run by run. -/

/-- UTF-8 encoding of one scalar value. -/
def utf8EncodeChar (c : Char) : List Nat :=
  if c.toNat < 0x80 then [c.toNat]
  else if c.toNat < 0x800 then [0xC0 + c.toNat / 64, 0x80 + c.toNat % 64]
  else if c.toNat < 0x10000 then
    [0xE0 + c.toNat / 4096, 0x80 + (c.toNat / 64) % 64, 0x80 + c.toNat % 64]
  else
    [0xF0 + c.toNat / 0x40000, 0x80 + (c.toNat / 4096) % 64, 0x80 + (c.toNat / 64) % 64,
      0x80 + c.toNat % 64]

/-- UTF-8 encoding of a character list, as CPython `str.encode('utf-8')`. -/
def utf8Encode (s : List Char) : List Nat :=
  (s.map utf8EncodeChar).flatten

/-- An ASCII hexadecimal digit byte, as accepted by `_hextobyte`. -/
def isHexByte (b : Nat) : Bool :=
  (48 ≤ b ∧ b ≤ 57) ∨ (65 ≤ b ∧ b ≤ 70) ∨ (97 ≤ b ∧ b ≤ 102)

/-- Value of an ASCII hexadecimal digit byte. -/
def hexVal (b : Nat) : Nat :=
  if b ≤ 57 then b - 48 else if b ≤ 70 then b - 55 else b - 87

/-- Byte-level `%XX` replacement of `urllib.parse._unquote_impl`: a `%`
followed by two hex digits becomes the denoted byte; any other `%` is kept
literally.  (CPython chunks the input at every `%`; processing the bytes
in one pass is equivalent because `%` is not a hex digit.) -/
def percentDecode : List Nat → List Nat
  | [] => []
  | 37 :: h1 :: h2 :: rest =>
    if isHexByte h1 ∧ isHexByte h2 then
      (hexVal h1 * 16 + hexVal h2) :: percentDecode rest
    else
      37 :: percentDecode (h1 :: h2 :: rest)
  | b :: rest => b :: percentDecode rest

/-- A UTF-8 continuation byte `0b10xxxxxx`. -/
def contByte (b : Nat) : Bool := 128 ≤ b ∧ b ≤ 191

/-- Valid first continuation byte after a three-byte lead `b`. -/
def validCont3 (b c : Nat) : Bool :=
  if b = 0xE0 then 0xA0 ≤ c ∧ c ≤ 0xBF
  else if b = 0xED then 0x80 ≤ c ∧ c ≤ 0x9F
  else contByte c

/-- Valid first continuation byte after a four-byte lead `b`. -/
def validCont4 (b c : Nat) : Bool :=
  if b = 0xF0 then 0x90 ≤ c ∧ c ≤ 0xBF
  else if b = 0xF4 then 0x80 ≤ c ∧ c ≤ 0x8F
  else contByte c

/-- The Unicode replacement character U+FFFD. -/
def replChar : Char := Char.ofNat 0xFFFD

/-- UTF-8 decoding with `errors='replace'`: each maximal invalid subpart
becomes one U+FFFD, as in CPython's decoder. -/
def utf8DecodeReplace : List Nat → List Char
  | [] => []
  | b :: rest =>
    if b ≤ 0x7F then Char.ofNat b :: utf8DecodeReplace rest
    else if 0xC2 ≤ b ∧ b ≤ 0xDF then
      match rest with
      | [] => [replChar]
      | c1 :: r2 =>
        if contByte c1 then
          Char.ofNat ((b % 32) * 64 + c1 % 64) :: utf8DecodeReplace r2
        else replChar :: utf8DecodeReplace (c1 :: r2)
    else if 0xE0 ≤ b ∧ b ≤ 0xEF then
      match rest with
      | [] => [replChar]
      | c1 :: r2 =>
        if validCont3 b c1 then
          match r2 with
          | [] => [replChar]
          | c2 :: r3 =>
            if contByte c2 then
              Char.ofNat ((b % 16) * 4096 + (c1 % 64) * 64 + c2 % 64) :: utf8DecodeReplace r3
            else replChar :: utf8DecodeReplace (c2 :: r3)
        else replChar :: utf8DecodeReplace (c1 :: r2)
    else if 0xF0 ≤ b ∧ b ≤ 0xF4 then
      match rest with
      | [] => [replChar]
      | c1 :: r2 =>
        if validCont4 b c1 then
          match r2 with
          | [] => [replChar]
          | c2 :: r3 =>
            if contByte c2 then
              match r3 with
              | [] => [replChar]
              | c3 :: r4 =>
                if contByte c3 then
                  Char.ofNat ((b % 8) * 0x40000 + (c1 % 64) * 4096 + (c2 % 64) * 64 + c3 % 64)
                    :: utf8DecodeReplace r4
                else replChar :: utf8DecodeReplace (c3 :: r4)
            else replChar :: utf8DecodeReplace (c2 :: r3)
        else replChar :: utf8DecodeReplace (c1 :: r2)
    else replChar :: utf8DecodeReplace rest

/-- CPython `urllib.parse.unquote` with the default UTF-8 `'replace'`
handling. -/
def pyUnquote (s : String) : String :=
  String.mk (utf8DecodeReplace (percentDecode (utf8Encode s.data)))

/-! ### CPython `urllib.parse.parse_qsl` / `parse_qs`

Defaults of the backend's call: `keep_blank_values=False`,
`strict_parsing=False`, `separator='&'` (CPython ≥ 3.9.2).  A field without
`=` or with an empty raw value is dropped; `+` becomes a space in names and
values before unquoting. -/

/-- Python `s.replace('+', ' ')`. -/
def plusToSpace (l : List Char) : List Char :=
  l.map fun c => if c = '+' then ' ' else c

/-- CPython `parse_qsl(qs)` with the backend's (default) arguments. -/
def pyParseQsl (qs : String) : List (String × String) :=
  (pySplit ['&'] qs.data).filterMap fun nv =>
    if nv = [] then none
    else
      match splitOnceChar '=' nv with
      | none => none
      | some (n, v) =>
        if v = [] then none
        else some (pyUnquote (String.mk (plusToSpace n)), pyUnquote (String.mk (plusToSpace v)))

/-- `'v' in parse_qs(query)` together with `parse_qs(query)['v'][0]`:
`parse_qs` groups the `parse_qsl` pairs by name in encounter order, so the
first value of the `'v'` key is the value of the first pair named `"v"`. -/
def firstVValue (pairs : List (String × String)) : Option String :=
  (pairs.find? fun p => p.1 = "v").map fun p => p.2

/-! ### CPython `urllib.parse.urlparse` — query component

`urlparse(url).query` is computed by `urlsplit` (CPython 3.11.6,
`Lib/urllib/parse.py`): the URL is lstripped of C0-control/space characters
and purged of `\t`, `\r`, `\n`; a leading `scheme:` (first character an ASCII
letter, all characters before the colon in `scheme_chars`) is removed; when
the remainder starts with `//`, the authority extends to the first of
`/?#`, and a `[` without `]` (or vice versa) in it raises
`ValueError("Invalid IPv6 URL")`; the fragment is everything after the first
`#`, and the query everything after the first `?` of what precedes it.

Two further `ValueError` sources of CPython's `urlsplit` are not modelled,
because they concern only exotic authorities that no claim involves and they
feed the very same `except`-branch (absence) as the modelled one:
`_check_bracketed_host` (3.11+) rejects a bracketed authority that is not a
valid IP literal, and `_checknetloc` rejects certain non-ASCII authorities
under NFKC normalization. -/

/-- `scheme_chars` of `urllib.parse`: ASCII letters, digits, `+`, `-`, `.`. -/
def isSchemeChar (c : Char) : Bool :=
  c.isAlpha ∨ c.isDigit ∨ c = '+' ∨ c = '-' ∨ c = '.'

/-- Removal of a leading `scheme:`, as in `urlsplit`: requires a colon at a
positive position, a leading ASCII letter, and scheme characters up to the
colon. -/
def stripScheme (l : List Char) : List Char :=
  match splitOnceChar ':' l with
  | none => l
  | some (before, after) =>
    match before with
    | [] => l
    | c0 :: _ =>
      if c0.isAlpha ∧ before.all isSchemeChar then after else l

/-- The single modelled raise of `urlsplit`. -/
inductive UrlParseError where
  | invalidIPv6
deriving DecidableEq, Repr

/-- `urlparse(url).query` as computed by CPython 3.11 `urlsplit`, or the
modelled `ValueError`. -/
def pyUrlparseQuery (url : String) : Except UrlParseError String :=
  let cleaned := (url.data.dropWhile fun c => c.toNat ≤ 0x20).filter
    fun c => ¬ (c = '\t' ∨ c = '\r' ∨ c = '\n')
  let afterScheme := stripScheme cleaned
  let netlocCheck :=
    if startsWithList ['/', '/'] afterScheme then
      let netloc := (afterScheme.drop 2).takeWhile fun c => ¬ (c = '/' ∨ c = '?' ∨ c = '#')
      ¬ ((netloc.contains '[' = true) ↔ (netloc.contains ']' = true))
    else False
  if netlocCheck then .error .invalidIPv6
  else
    let preFragment := cleaned.takeWhile fun c => c ≠ '#'
    match splitOnceChar '?' preFragment with
    | some (_, q) => .ok (String.mk q)
    | none => .ok ""

/-! ### The URL identifier extractor

`get_video_id_from_url` of `backendd.py`:

    def get_video_id_from_url(video_url: str) -> str | None:
        try:
            query = urlparse(video_url).query
            params = parse_qs(query)
            if 'v' in params:
                return params['v'][0]
            if 'youtu.be/' in video_url:
                return video_url.split('youtu.be/')[-1].split('?')[0]
        except Exception as e:
            print(f"Error parsing URL: {e}")
            return None
        return None

The only statement in the `try` block that can raise is `urlparse`
(`parse_qs` with default arguments and the `split` chain are total), so the
`except` branch is entered exactly when the query extraction above errors. -/

/-- The short-link marker searched for by the extractor. -/
def shortLinkSeg : String := "youtu.be/"

/-- `video_url.split('youtu.be/')[-1].split('?')[0]`. -/
def shortLinkCandidate (video_url : String) : String :=
  String.mk ((pySplit ['?'] ((pySplit shortLinkSeg.data video_url.data).getLastD [])).headD [])

/-- The URL identifier extractor `get_video_id_from_url`. -/
def get_video_id_from_url (video_url : String) : Option String :=
  match pyUrlparseQuery video_url with
  | .error _ => none
  | .ok query =>
    match firstVValue (pyParseQsl query) with
    | some v => some v
    | none =>
      if pyContains shortLinkSeg.data video_url.data then
        some (shortLinkCandidate video_url)
      else none

example : get_video_id_from_url "https://www.youtube.com/watch?v=dQw4w9WgXcQ" =
    some "dQw4w9WgXcQ" := by decide
example : get_video_id_from_url "https://youtu.be/abc123" = some "abc123" := by decide
example : get_video_id_from_url "not a url" = none := by decide
example : get_video_id_from_url "" = none := by decide
example : get_video_id_from_url "http://[" = none := by decide
example : get_video_id_from_url "http://[/youtu.be/abc" = none := by decide
example : get_video_id_from_url "https://youtu.be/?x=1" = some "" := by decide
example : get_video_id_from_url "https://youtu.be/abc?v=" = some "abc" := by decide
example : get_video_id_from_url "https://www.youtube.com/watch?v=" = none := by decide
example : get_video_id_from_url "a?v=%41+b" = some "A b" := by decide
example : get_video_id_from_url "x#?v=3" = none := by decide
example : get_video_id_from_url "HTTP://a?v=x" = some "x" := by decide
example : get_video_id_from_url "?v=&v=y" = some "y" := by decide

/-! ### The transcript fetcher

`get_transcript` of `backendd.py` drives the external `youtube_transcript_api`
library, which we model as a record of fallible operations: `list` yields a
transcript listing, whose `find_transcript` takes a language-code list and
yields a transcript object, whose `fetch` yields the timed snippets.  Any of
these may raise (video not found, transcripts disabled, no such language);
the exception payload is opaque to the backend. -/

/-- One timed transcript segment; only its `text` field is used. -/
structure TranscriptSnippet where
  text : String
deriving DecidableEq, Repr

/-- A transcript selected from the listing; `fetch` returns its snippets in
their original order or raises. -/
structure TranscriptObj where
  fetch : Except PyExn (List TranscriptSnippet)

/-- The listing returned by `YouTubeTranscriptApi().list(video_id)`. -/
structure TranscriptListing where
  find_transcript : List String → Except PyExn TranscriptObj

/-- The external transcript service: behaviour of
`YouTubeTranscriptApi().list`. -/
structure YouTubeTranscriptApi where
  list : String → Except PyExn TranscriptListing

/-- The nested `try` chain of `get_transcript`: try `['en-IN']`, on any
exception try `['hi']`, on any exception try `['en']` (whose failure
propagates to the enclosing handler). -/
def find_with_fallback (transcripts : TranscriptListing) : Except PyExn TranscriptObj :=
  match transcripts.find_transcript ["en-IN"] with
  | .ok t => .ok t
  | .error _ =>
    match transcripts.find_transcript ["hi"] with
    | .ok t => .ok t
    | .error _ => transcripts.find_transcript ["en"]

/-- Message of the single `ValueError` raised by `get_transcript`. -/
def transcriptFailureMsg : String :=
  "Could not fetch transcript. The video may not have one, or it\x27s disabled."

/-- The transcript fetcher `get_transcript`: list the transcripts, select one
through the language fallback chain, fetch it, and join the snippet texts
with single spaces (`" ".join(...)`); any exception anywhere in that chain is
caught and replaced by the one fixed `ValueError`. -/
def get_transcript (yt : YouTubeTranscriptApi) (video_id : String) :
    Except PyValueError String :=
  match yt.list video_id with
  | .error _ => .error ⟨transcriptFailureMsg⟩
  | .ok transcripts =>
    match find_with_fallback transcripts with
    | .error _ => .error ⟨transcriptFailureMsg⟩
    | .ok transcript_obj =>
      match transcript_obj.fetch with
      | .error _ => .error ⟨transcriptFailureMsg⟩
      | .ok transcript_data =>
        .ok (String.intercalate " " (transcript_data.map TranscriptSnippet.text))

/-! ### The summarizer

`summarize_with_gemini` embeds the transcript into the f-string template of
`backendd.py` (reproduced byte for byte, including the trailing space after
"bullet points, " and the indentation of the triple-quoted literal) and calls
the external model; any exception becomes the fixed `ValueError`. -/

/-- The generative-model service: behaviour of `model.generate_content`
followed by the `.text` accessor, either of which may raise. -/
structure GenModel where
  generate_content : String → Except PyExn String

/-- Text of the prompt template before the interpolated transcript. -/
def geminiPromptPre : String :=
  "\n    You are an expert video summarizer.\n    Summarize the following video transcript into 3-5 concise bullet points, \n    highlighting the main ideas and conclusions.\n\n    Transcript:\n    \""

/-- Text of the prompt template after the interpolated transcript. -/
def geminiPromptPost : String := "\"\n\n    Summary:\n    "

/-- Message of the `ValueError` raised on summarization failure. -/
def summarizeFailureMsg : String := "Error from summarization model."

/-- The summarizer `summarize_with_gemini`. -/
def summarize_with_gemini (model : GenModel) (transcript : String) :
    Except PyValueError String :=
  match model.generate_content (geminiPromptPre ++ transcript ++ geminiPromptPost) with
  | .ok text => .ok text
  | .error _ => .error ⟨summarizeFailureMsg⟩

/-! ### The request handler

`handle_summarize_request` of `backendd.py`:

    @app.post("/summarize", response_model=SummaryResponse)
    async def handle_summarize_request(request: VideoRequest):
        try:
            video_id = get_video_id_from_url(request.video_url)
            if not video_id:
                raise HTTPException(status_code=400, detail="Invalid YouTube URL. ...")
            transcript = get_transcript(video_id)
            summary = summarize_with_gemini(transcript)
            return SummaryResponse(summary=summary)
        except ValueError as e:
            raise HTTPException(status_code=400, detail=str(e))
        except Exception as e:
            raise HTTPException(status_code=500, detail=f"An internal error occurred: {str(e)}")

Exception-flow analysis (plain CPython semantics):

* FastAPI's `HTTPException` derives from starlette's, which derives from
  `Exception` and is not a `ValueError`.  The `raise HTTPException(400, ...)`
  for a missing identifier happens *inside* the `try` body, so it is caught
  by `except Exception` and replaced by
  `HTTPException(500, "An internal error occurred: " + str(e))`, where
  starlette's `HTTPException.__str__` renders `f"{status_code}: {detail}"`.
  The invalid-URL path therefore produces a 500 response, not a 400.
* `raise` statements inside the two `except` clauses are not caught by the
  sibling clauses, so the `ValueError`s of `get_transcript` and
  `summarize_with_gemini` do surface as 400 responses with the error's
  message as detail.
* `if not video_id` is Python falsiness: it holds for `None` and for the
  empty string.

A response is the HTTP status plus the JSON body: `{"summary": ...}` on
success (via `response_model=SummaryResponse`), `{"detail": ...}` for an
`HTTPException`. -/

/-- JSON body of a `/summarize` response. -/
inductive ResponseBody where
  | summary (s : String)
  | detail (s : String)
deriving DecidableEq, Repr

/-- An HTTP response: status code and JSON body. -/
structure HttpResponse where
  status : Nat
  body : ResponseBody
deriving DecidableEq, Repr

/-- The request body accepted by `POST /summarize` (pydantic `VideoRequest`). -/
structure VideoRequest where
  video_url : String
deriving DecidableEq, Repr

/-- Detail of the `HTTPException(400, ...)` raised for a missing identifier. -/
def invalidUrlDetail : String := "Invalid YouTube URL. Could not find video ID."

/-- `str(e)` for a starlette `HTTPException` `e`: `f"{self.status_code}: {self.detail}"`. -/
def httpExceptionStr (status : Nat) (detail : String) : String :=
  toString status ++ ": " ++ detail

/-- The response actually produced when the extractor yields no identifier:
the inner `HTTPException(400, invalidUrlDetail)` is caught by
`except Exception` and re-raised as a 500. -/
def invalidUrlResponse : HttpResponse :=
  ⟨500, .detail ("An internal error occurred: " ++ httpExceptionStr 400 invalidUrlDetail)⟩

/-- The `POST /summarize` handler `handle_summarize_request`, parameterized
by the two external services. -/
def handle_summarize_request (yt : YouTubeTranscriptApi) (model : GenModel)
    (request : VideoRequest) : HttpResponse :=
  match get_video_id_from_url request.video_url with
  | none => invalidUrlResponse
  | some video_id =>
    if video_id = "" then invalidUrlResponse
    else
      match get_transcript yt video_id with
      | .error e => ⟨400, .detail e.msg⟩
      | .ok transcript =>
        match summarize_with_gemini model transcript with
        | .error e => ⟨400, .detail e.msg⟩
        | .ok summary => ⟨200, .summary summary⟩

/-! ### Module initialization

Lines 10–14 of `backendd.py` run at import time, before `app = FastAPI()`
and the route registration:

    try:
        api_key = os.environ["GOOGLE_API_KEY"]
        genai.configure(api_key=api_key)
    except KeyError:
        raise RuntimeError("GOOGLE_API_KEY environment variable not set. ...")

`os.environ[...]` raises `KeyError` exactly when the variable is absent. -/

/-- Payload of the `RuntimeError` raised at startup. -/
structure PyRuntimeError where
  msg : String
deriving DecidableEq, Repr

/-- Message of the startup `RuntimeError`. -/
def apiKeyMissingMsg : String :=
  "GOOGLE_API_KEY environment variable not set. Please set it before running."

/-- The state built by a successful import of the module: the configured key
and the single registered route. -/
structure BackendModule where
  api_key : String
  summarize_route : YouTubeTranscriptApi → GenModel → VideoRequest → HttpResponse

/-- Import-time initialization of `backendd.py` over an environment: the key
lookup runs first, and only on success is the application with its
`/summarize` route constructed. -/
def backendModuleInit (env : String → Option String) :
    Except PyRuntimeError BackendModule :=
  match env "GOOGLE_API_KEY" with
  | none => .error ⟨apiKeyMissingMsg⟩
  | some key => .ok ⟨key, handle_summarize_request⟩

/-! ### Helper lemmas

`parse_qsl` keeps a pair only when its raw value is non-empty, and `unquote`
never maps a non-empty string to an empty one; hence every parsed value is
non-empty.  These lemmas back the analysis of empty `v=` parameters. -/

theorem utf8EncodeChar_ne_nil (c : Char) : utf8EncodeChar c ≠ [] := by
  unfold utf8EncodeChar
  intro hc
  split at hc <;> try split at hc
  all_goals try split at hc
  all_goals simp at hc

theorem utf8Encode_ne_nil (l : List Char) (h : l ≠ []) : utf8Encode l ≠ [] := by
  cases l with
  | nil => exact absurd rfl h
  | cons c cs =>
    simp only [utf8Encode, List.map_cons, List.flatten_cons, ne_eq, List.append_eq_nil]
    intro hc
    exact utf8EncodeChar_ne_nil c hc.1

theorem percentDecode_ne_nil (bs : List Nat) (h : bs ≠ []) : percentDecode bs ≠ [] := by
  rw [percentDecode.eq_def]
  split
  · exact absurd rfl h
  · split <;> simp
  · simp

theorem utf8DecodeReplace_ne_nil (bs : List Nat) (h : bs ≠ []) :
    utf8DecodeReplace bs ≠ [] := by
  rw [utf8DecodeReplace.eq_def]
  split
  · exact absurd rfl h
  · repeat' split
    all_goals simp

theorem pyUnquote_ne_empty (s : String) (h : s.data ≠ []) : pyUnquote s ≠ "" := by
  intro hc
  have hd : utf8DecodeReplace (percentDecode (utf8Encode s.data)) = [] :=
    congrArg String.data hc
  exact utf8DecodeReplace_ne_nil _ (percentDecode_ne_nil _ (utf8Encode_ne_nil _ h)) hd

theorem pyParseQsl_value_ne_empty (qs : String) (p : String × String)
    (hp : p ∈ pyParseQsl qs) : p.2 ≠ "" := by
  rw [pyParseQsl] at hp
  rcases List.mem_filterMap.mp hp with ⟨nv, _, hf⟩
  split at hf
  · simp at hf
  · split at hf
    · simp at hf
    · rename_i hsplit
      split at hf
      · simp at hf
      · rename_i n v hv
        simp only [Option.some.injEq] at hf
        have h2 : p.2 = pyUnquote (String.mk (plusToSpace v)) := by
          rw [hf.symm]
        rw [h2]
        apply pyUnquote_ne_empty
        simp only [ne_eq]
        intro hc
        exact hv (by simpa [plusToSpace] using hc)

/-! ### Claims about the URL identifier extractor -/

/-- Unfolding of the extractor on a successfully parsed query. -/
theorem get_video_id_eq_of_ok (url q : String) (hq : pyUrlparseQuery url = .ok q) :
    get_video_id_from_url url =
      match firstVValue (pyParseQsl q) with
      | some v => some v
      | none =>
        if pyContains shortLinkSeg.data url.data then some (shortLinkCandidate url)
        else none := by
  unfold get_video_id_from_url
  rw [hq]

/-- C2, counterexample.  The claim states that *every* URL string containing
the short-link segment `youtu.be/` (and no `v` query parameter) yields the
substring following that segment up to the next `?`.  The URL
`"http://[/youtu.be/abc"` contains the segment and no `v` parameter, and
that substring is `"abc"`, yet the extractor returns absence: `urlparse`
raises `ValueError("Invalid IPv6 URL")` on the unmatched `[` in the
authority, and the extractor's `except` branch returns `None` before the
short-link rule is ever reached. -/
theorem c2_counterexample :
    pyContains shortLinkSeg.data "http://[/youtu.be/abc".data = true ∧
    pyContains "v=".data "http://[/youtu.be/abc".data = false ∧
    shortLinkCandidate "http://[/youtu.be/abc" = "abc" ∧
    get_video_id_from_url "http://[/youtu.be/abc" = none := by decide

/-- C2, amended: *provided the URL parse does not raise* (mismatched IPv6
bracket in the authority — such URLs yield absence regardless of the other
patterns), the extractor returns the first `v` value when the query has a
`v` parameter; otherwise, when the URL text contains `youtu.be/`, the
substring following its last occurrence up to the next `?`; otherwise
absence.  The `v`-parameter rule takes precedence over the short-link
rule. -/
theorem c2_extractor_cases (url q : String) (hq : pyUrlparseQuery url = .ok q) :
    (∀ id, firstVValue (pyParseQsl q) = some id →
      get_video_id_from_url url = some id) ∧
    (firstVValue (pyParseQsl q) = none →
      pyContains shortLinkSeg.data url.data = true →
      get_video_id_from_url url = some (shortLinkCandidate url)) ∧
    (firstVValue (pyParseQsl q) = none →
      pyContains shortLinkSeg.data url.data = false →
      get_video_id_from_url url = none) := by
  rw [get_video_id_eq_of_ok url q hq]
  refine ⟨fun id hv => ?_, fun hv hseg => ?_, fun hv hseg => ?_⟩
  · rw [hv]
  · rw [hv, hseg]
    simp
  · rw [hv, hseg]
    simp

theorem c2_witness :
    get_video_id_from_url "https://www.youtube.com/watch?v=dQw4w9WgXcQ" =
      some "dQw4w9WgXcQ" ∧
    get_video_id_from_url "https://youtu.be/abc123" = some "abc123" ∧
    get_video_id_from_url "https://example.com/page?a=1" = none := by
  refine ⟨?_, ?_, ?_⟩
  · exact (c2_extractor_cases "https://www.youtube.com/watch?v=dQw4w9WgXcQ"
      "v=dQw4w9WgXcQ" (by decide)).1 "dQw4w9WgXcQ" (by decide)
  · have h := (c2_extractor_cases "https://youtu.be/abc123" "" (by decide)).2.1
      (by decide) (by decide)
    rwa [(by decide : shortLinkCandidate "https://youtu.be/abc123" = "abc123")] at h
  · exact (c2_extractor_cases "https://example.com/page?a=1" "a=1" (by decide)).2.2
      (by decide) (by decide)

/-- C3.  The extractor is a total function into `Option String`: on every
input it returns an identifier or absence; the only raising operation in its
`try` block, `urlparse`, is modelled by the error case of
`pyUrlparseQuery`, which the `except` branch maps to absence — exercised
here on the concrete raise path `"http://["` as well as on the empty string
and on non-URL text. -/
theorem c3_extractor_never_raises :
    (∀ url : String, get_video_id_from_url url = none ∨
      ∃ id, get_video_id_from_url url = some id) ∧
    get_video_id_from_url "" = none ∧
    get_video_id_from_url "not a url" = none ∧
    get_video_id_from_url "http://[" = none := by
  refine ⟨fun url => ?_, by decide, by decide, by decide⟩
  cases h : get_video_id_from_url url with
  | none => exact .inl rfl
  | some id => exact .inr ⟨id, rfl⟩

/-- C10.  `parse_qsl` drops every field whose raw value is empty
(`keep_blank_values=False`), and `unquote` never shrinks a non-empty value
to nothing, so no parsed query pair — in particular none named `v` — ever
carries the empty string: an empty `v=` is invisible to the `v` rule.  On
`watch?v=` the extractor therefore falls through to absence, and on
`youtu.be/abc?v=` to the short-link rule. -/
theorem c10_empty_v_ignored :
    (∀ (q : String) (p : String × String), p ∈ pyParseQsl q → p.2 ≠ "") ∧
    get_video_id_from_url "https://www.youtube.com/watch?v=" = none ∧
    get_video_id_from_url "https://youtu.be/abc?v=" = some "abc" := by
  exact ⟨pyParseQsl_value_ne_empty, by decide, by decide⟩

theorem c10_witness : (("x", "1") : String × String).2 ≠ "" :=
  c10_empty_v_ignored.1 "v=&x=1" ("x", "1") (by decide)

/-! ### Claims about the fetcher, the summarizer and the handler -/

/-- C1.  On the request body `{"video_url": "not a url"}` the extractor finds
no identifier and the handler raises `HTTPException(400, "Invalid YouTube
URL. Could not find video ID.")` — but inside the `try` block, where the
blanket `except Exception` catches it and re-raises it as a **500** whose
detail wraps the stringified 400.  The response is the same constant for
every transcript service and every model, i.e. neither external service is
consulted.  The claimed status 400 is refuted by the second conjunct. -/
theorem c1_not_a_url_response (yt : YouTubeTranscriptApi) (model : GenModel) :
    handle_summarize_request yt model ⟨"not a url"⟩ = invalidUrlResponse ∧
    invalidUrlResponse = ⟨500, .detail
      "An internal error occurred: 400: Invalid YouTube URL. Could not find video ID."⟩ := by
  constructor
  · unfold handle_summarize_request
    rw [(by decide : get_video_id_from_url "not a url" = none)]
  · decide

/-- C4.  Whenever listing, selection and fetching all succeed, the fetcher
returns exactly the snippet texts joined with single spaces, in their
original order (`" ".join([item.text for item in transcript_data])`). -/
theorem c4_join_with_spaces (yt : YouTubeTranscriptApi) (video_id : String)
    (transcripts : TranscriptListing) (t : TranscriptObj)
    (segs : List TranscriptSnippet)
    (hl : yt.list video_id = .ok transcripts)
    (hs : find_with_fallback transcripts = .ok t)
    (hf : t.fetch = .ok segs) :
    get_transcript yt video_id =
      .ok (String.intercalate " " (segs.map TranscriptSnippet.text)) := by
  unfold get_transcript
  rw [hl]
  dsimp only
  rw [hs]
  dsimp only
  rw [hf]

/-- Transcript object of the C4 stub service: two snippets. -/
def c4StubObj : TranscriptObj := ⟨.ok [⟨"Hello"⟩, ⟨"world"⟩]⟩

/-- Listing of the C4 stub service: every language succeeds. -/
def c4StubListing : TranscriptListing := ⟨fun _ => .ok c4StubObj⟩

/-- The C4 stub transcript service. -/
def c4StubApi : YouTubeTranscriptApi := ⟨fun _ => .ok c4StubListing⟩

theorem c4_witness : get_transcript c4StubApi "abc123" = .ok "Hello world" := by
  have h := c4_join_with_spaces c4StubApi "abc123" c4StubListing c4StubObj
    [⟨"Hello"⟩, ⟨"world"⟩] rfl rfl rfl
  rwa [(by decide :
    String.intercalate " " ([⟨"Hello"⟩, ⟨"world"⟩].map TranscriptSnippet.text) =
      "Hello world")] at h

/-- C5.  The selection chain tries `['en-IN']`, then `['hi']`, then `['en']`
and uses the first attempt that succeeds; in particular, when the preferred
language is missing but a later one in the chain exists, the fetcher fetches
that fallback transcript and returns normally. -/
theorem c5_fallback_chain :
    (∀ (l : TranscriptListing) (t : TranscriptObj),
      l.find_transcript ["en-IN"] = .ok t → find_with_fallback l = .ok t) ∧
    (∀ (l : TranscriptListing) (e : PyExn) (t : TranscriptObj),
      l.find_transcript ["en-IN"] = .error e → l.find_transcript ["hi"] = .ok t →
      find_with_fallback l = .ok t) ∧
    (∀ (l : TranscriptListing) (e e2 : PyExn),
      l.find_transcript ["en-IN"] = .error e → l.find_transcript ["hi"] = .error e2 →
      find_with_fallback l = l.find_transcript ["en"]) ∧
    (∀ (yt : YouTubeTranscriptApi) (video_id : String) (l : TranscriptListing)
      (e : PyExn) (t : TranscriptObj) (segs : List TranscriptSnippet),
      yt.list video_id = .ok l → l.find_transcript ["en-IN"] = .error e →
      l.find_transcript ["hi"] = .ok t → t.fetch = .ok segs →
      get_transcript yt video_id =
        .ok (String.intercalate " " (segs.map TranscriptSnippet.text))) := by
  refine ⟨fun l t h1 => ?_, fun l e t h1 h2 => ?_, fun l e e2 h1 h2 => ?_,
    fun yt vid l e t segs hl h1 h2 hf => ?_⟩
  · unfold find_with_fallback
    rw [h1]
  · unfold find_with_fallback
    rw [h1, h2]
  · unfold find_with_fallback
    rw [h1, h2]
  · unfold get_transcript find_with_fallback
    rw [hl]
    dsimp only
    rw [h1]
    dsimp only
    rw [h2]
    dsimp only
    rw [hf]

/-- Transcript object of the C5 stub service (the Hindi transcript). -/
def c5StubObj : TranscriptObj := ⟨.ok [⟨"namaste"⟩, ⟨"duniya"⟩]⟩

/-- Listing of the C5 stub service: `en-IN` is missing, every other
language succeeds. -/
def c5StubListing : TranscriptListing :=
  ⟨fun languages =>
    if languages = ["en-IN"] then .error ⟨"NoTranscriptFound"⟩ else .ok c5StubObj⟩

/-- The C5 stub transcript service. -/
def c5StubApi : YouTubeTranscriptApi := ⟨fun _ => .ok c5StubListing⟩

theorem c5_witness : get_transcript c5StubApi "abc123" = .ok "namaste duniya" := by
  have h := c5_fallback_chain.2.2.2 c5StubApi "abc123" c5StubListing
    ⟨"NoTranscriptFound"⟩ c5StubObj [⟨"namaste"⟩, ⟨"duniya"⟩] rfl rfl rfl rfl
  rwa [(by decide :
    String.intercalate " " ([⟨"namaste"⟩, ⟨"duniya"⟩].map TranscriptSnippet.text) =
      "namaste duniya")] at h

/-- C6.  For every behaviour of the external service and every video
identifier — no language variant found, listing failed, fetching failed —
`get_transcript` either returns a transcript or fails with the one fixed
`ValueError`; its result never carries any other error, so the caller cannot
distinguish the underlying cause. -/
theorem c6_single_failure_mode (yt : YouTubeTranscriptApi) (video_id : String) :
    (∃ s, get_transcript yt video_id = .ok s) ∨
    get_transcript yt video_id = .error ⟨transcriptFailureMsg⟩ := by
  unfold get_transcript
  cases yt.list video_id with
  | error e => exact .inr rfl
  | ok transcripts =>
    dsimp only
    cases find_with_fallback transcripts with
    | error e => exact .inr rfl
    | ok t =>
      dsimp only
      cases t.fetch with
      | error e => exact .inr rfl
      | ok segs => exact .inl ⟨_, rfl⟩

/-- Listing of the C7 stub transcript service: one segment, any language. -/
def c7StubListing : TranscriptListing := ⟨fun _ => .ok ⟨.ok [⟨"the only segment"⟩]⟩⟩

/-- The C7 stub transcript service. -/
def c7StubApi : YouTubeTranscriptApi := ⟨fun _ => .ok c7StubListing⟩

/-- The C7 stub model: returns `"- point one"` for every prompt. -/
def c7StubModel : GenModel := ⟨fun _ => .ok "- point one"⟩

/-- C7.  The summarizer sends the external model exactly
`geminiPromptPre ++ transcript ++ geminiPromptPost` — the fixed template with
the transcript embedded verbatim — and passes the model's output text
through unmodified; end to end, `POST {"video_url": "https://youtu.be/abc123"}`
against the stub transcript service and the stub model answers
`200 {"summary": "- point one"}`. -/
theorem c7_prompt_and_passthrough :
    (∀ (model : GenModel) (transcript output : String),
      model.generate_content (geminiPromptPre ++ transcript ++ geminiPromptPost) =
        .ok output →
      summarize_with_gemini model transcript = .ok output) ∧
    handle_summarize_request c7StubApi c7StubModel ⟨"https://youtu.be/abc123"⟩ =
      ⟨200, .summary "- point one"⟩ := by
  constructor
  · intro model transcript output h
    unfold summarize_with_gemini
    rw [h]
  · decide

theorem c7_witness : summarize_with_gemini c7StubModel "T" = .ok "- point one" :=
  c7_prompt_and_passthrough.1 c7StubModel "T" "- point one" rfl

/-- C8.  When the environment lacks `GOOGLE_API_KEY`, module initialization
stops with the `RuntimeError` before the application object or its
`/summarize` route exist: no `BackendModule` is ever produced, so no request
can be served. -/
theorem c8_fail_fast_without_key (env : String → Option String)
    (h : env "GOOGLE_API_KEY" = none) :
    backendModuleInit env = .error ⟨apiKeyMissingMsg⟩ ∧
    ∀ m : BackendModule, backendModuleInit env ≠ .ok m := by
  unfold backendModuleInit
  rw [h]
  exact ⟨rfl, fun m hc => by simp at hc⟩

theorem c8_witness : backendModuleInit (fun _ => none) = .error ⟨apiKeyMissingMsg⟩ :=
  (c8_fail_fast_without_key (fun _ => none) rfl).1

/-- Stub transcript service used only to instantiate handler theorems. -/
def anyStubApi : YouTubeTranscriptApi := ⟨fun _ => .error ⟨"unused"⟩⟩

/-- Stub model used only to instantiate handler theorems. -/
def anyStubModel : GenModel := ⟨fun _ => .error ⟨"unused"⟩⟩

/-- C9.  When the extractor returns the empty identifier, the handler's
`if not video_id` treats it exactly like absence: the response is the same
invalid-URL rejection constant, it does not depend on the transcript service
or the model (neither is called), and it coincides with the response to any
URL with no identifier at all. -/
theorem c9_empty_id_like_absence (url : String) (yt : YouTubeTranscriptApi)
    (model : GenModel) (h : get_video_id_from_url url = some "") :
    handle_summarize_request yt model ⟨url⟩ = invalidUrlResponse ∧
    (∀ (yt2 : YouTubeTranscriptApi) (model2 : GenModel),
      handle_summarize_request yt model ⟨url⟩ =
        handle_summarize_request yt2 model2 ⟨url⟩) ∧
    (∀ url2 : String, get_video_id_from_url url2 = none →
      handle_summarize_request yt model ⟨url⟩ =
        handle_summarize_request yt model ⟨url2⟩) := by
  have key : ∀ (yt3 : YouTubeTranscriptApi) (model3 : GenModel),
      handle_summarize_request yt3 model3 ⟨url⟩ = invalidUrlResponse := by
    intro yt3 model3
    unfold handle_summarize_request
    rw [h]
    dsimp only
    rw [if_pos rfl]
  refine ⟨key yt model, fun yt2 model2 => ?_, fun url2 h2 => ?_⟩
  · rw [key yt model, key yt2 model2]
  · have key2 : handle_summarize_request yt model ⟨url2⟩ = invalidUrlResponse := by
      unfold handle_summarize_request
      rw [h2]
    rw [key yt model, key2]

theorem c9_witness :
    handle_summarize_request anyStubApi anyStubModel ⟨"https://youtu.be/?x=1"⟩ =
      invalidUrlResponse :=
  (c9_empty_id_like_absence "https://youtu.be/?x=1" anyStubApi anyStubModel
    (by decide)).1
